import Mathlib

/-!
Shallow embedding of the STM32F4xx peripheral-clock layer
(`src/chips/stm32f4xx/src/clocks/periph.rs`) and the TRNG driver
(`src/chips/stm32f4xx/src/trng.rs`), with theorems checking the
specification's claims about frequency derivation and the interrupt
state machine.
-/

namespace Stm32

/-- APB bus prescaler, as in `rcc.rs` (`APBPrescaler`). The five divisor
variants are those the spec lists: divide by 1, 2, 4, 8 or 16. -/
inductive APBPrescaler
  | DivideBy1
  | DivideBy2
  | DivideBy4
  | DivideBy8
  | DivideBy16
deriving DecidableEq

/-- Modelled from the spec: the integer divisor of each APB prescaler
(`usize::from(prescaler)` is implemented in `rcc.rs`, which is outside the
provided sources; the spec's glossary defines a prescaler as "an integer
divisor" and lists the divisors 1, 2, 4, 8, 16). -/
def APBPrescaler.toNat : APBPrescaler → Nat
  | .DivideBy1 => 1
  | .DivideBy2 => 2
  | .DivideBy4 => 4
  | .DivideBy8 => 8
  | .DivideBy16 => 16

/-- Modelled from the spec: the Clock-Control Backend state read by
`get_frequency` through `rcc.get_sys_clock_frequency()`,
`rcc.get_apb1_prescaler()`, `rcc.get_apb2_prescaler()` and
`rcc.is_enabled_tim_pre()` (all implemented in `rcc.rs`, outside the
provided sources). `sys_clock_frequency` models the returned `usize`;
on this 32-bit target a `usize` value is below `2 ^ 32`. -/
structure Rcc where
  sys_clock_frequency : Nat
  apb1_prescaler : APBPrescaler
  apb2_prescaler : APBPrescaler
  tim_pre : Bool

/-- Peripherals clocked by HCLK1 (`enum HCLK1`). -/
inductive HCLK1
  | DMA1 | DMA2 | GPIOH | GPIOG | GPIOF | GPIOE | GPIOD | GPIOC | GPIOB | GPIOA
deriving DecidableEq

/-- Peripherals clocked by HCLK2 (`enum HCLK2`). -/
inductive HCLK2
  | RNG | OTGFS
deriving DecidableEq

/-- Peripherals clocked by HCLK3 (`enum HCLK3`). -/
inductive HCLK3
  | FMC
deriving DecidableEq

/-- Peripherals clocked by PCLK1 (`enum PCLK1`). -/
inductive PCLK1
  | TIM2 | USART2 | USART3 | SPI3 | I2C1 | CAN1 | DAC
deriving DecidableEq

/-- Peripherals clocked by PCLK2 (`enum PCLK2`). -/
inductive PCLK2
  | USART1 | ADC1 | SYSCFG
deriving DecidableEq

/-- Bus + clock name for the peripherals (`enum PeripheralClockType`). -/
inductive PeripheralClockType
  | AHB1 (v : HCLK1)
  | AHB2 (v : HCLK2)
  | AHB3 (v : HCLK3)
  | APB1 (v : PCLK1)
  | APB2 (v : PCLK2)
  | RTC
  | PWR
deriving DecidableEq

/-- The inner helper `tim_freq` of `PeripheralClock::get_frequency`:
when the TIMPRE bit is clear, prescaler 1 or 2 yields `hclk_freq`, any
larger prescaler yields `hclk_freq / prescaler * 2`; when TIMPRE is set,
prescaler 1, 2 or 4 yields `hclk_freq`, any larger prescaler yields
`hclk_freq / prescaler * 4`. Arithmetic is `usize` arithmetic: Nat
division, and the products never exceed `hclk_freq`. -/
def tim_freq (rcc : Rcc) (hclk_freq : Nat) (prescaler : APBPrescaler) : Nat :=
  if !rcc.tim_pre then
    match prescaler with
    | .DivideBy1 | .DivideBy2 => hclk_freq
    | _ => hclk_freq / prescaler.toNat * 2
  else
    match prescaler with
    | .DivideBy1 | .DivideBy2 | .DivideBy4 => hclk_freq
    | _ => hclk_freq / prescaler.toNat * 4

/-- `PeripheralClock::get_frequency`. AHB identities return the system
clock frequency; APB1 identities divide by the APB1 prescaler, except
TIM2 which uses `tim_freq`; APB2 identities divide by the APB2
prescaler; RTC and PWR hit `todo!()`, modelled as `none` (the call
panics and returns no value). The final `as u32` cast is modelled by
`% 2 ^ 32`. -/
def get_frequency (rcc : Rcc) (clock : PeripheralClockType) : Option Nat :=
  let hclk_freq := rcc.sys_clock_frequency
  match clock with
  | .AHB1 _ | .AHB2 _ | .AHB3 _ => some (hclk_freq % 2 ^ 32)
  | .APB1 v =>
    let prescaler := rcc.apb1_prescaler
    match v with
    | .TIM2 => some (tim_freq rcc hclk_freq prescaler % 2 ^ 32)
    | _ => some (hclk_freq / prescaler.toNat % 2 ^ 32)
  | .APB2 _ =>
    let prescaler := rcc.apb2_prescaler
    some (hclk_freq / prescaler.toNat % 2 ^ 32)
  | .RTC => none
  | .PWR => none

/-- `PeripheralClock::configure`: only the RNG clock identity invokes the
backend hook `rcc.configure_rng_clock()`; every other identity is a no-op. -/
def PeripheralClock.configure_invokes_rng_hook : PeripheralClockType → Bool
  | .AHB2 .RNG => true
  | _ => false

/-- AHB bus families of a clock identity. -/
def PeripheralClockType.isAHB : PeripheralClockType → Bool
  | .AHB1 _ | .AHB2 _ | .AHB3 _ => true
  | _ => false

/-- Dividing and then multiplying by a smaller factor does not exceed the
original value. -/
theorem div_mul_le_of_le (n p k : Nat) (hk : k ≤ p) : n / p * k ≤ n :=
  Nat.le_trans (Nat.mul_le_mul (Nat.le_refl _) hk) (Nat.div_mul_le_self n p)

/-- Reduction modulo `2 ^ 32` is the identity on `n / p * k` when `n` is a
32-bit value and `k ≤ p`; the result equals `k * (n / p)`. -/
theorem div_mul_mod_pow_eq (n p k : Nat) (hn : n < 2 ^ 32) (hk : k ≤ p) :
    n / p * k % 2 ^ 32 = k * (n / p) := by
  rw [Nat.mod_eq_of_lt (Nat.lt_of_le_of_lt (div_mul_le_of_le n p k hk) hn), Nat.mul_comm]

/-- C1: for TIM2 on APB1 with the TIMPRE flag clear, `get_frequency`
returns the undivided bus (system) clock frequency for prescalers 1 and 2,
and twice the divided frequency for any larger prescaler. -/
theorem tim2_frequency_timpre_clear (rcc : Rcc)
    (hflag : rcc.tim_pre = false)
    (hfreq : rcc.sys_clock_frequency < 2 ^ 32) :
    (rcc.apb1_prescaler = APBPrescaler.DivideBy1 ∨
        rcc.apb1_prescaler = APBPrescaler.DivideBy2 →
      get_frequency rcc (PeripheralClockType.APB1 PCLK1.TIM2)
        = some rcc.sys_clock_frequency) ∧
    (2 < rcc.apb1_prescaler.toNat →
      get_frequency rcc (PeripheralClockType.APB1 PCLK1.TIM2)
        = some (2 * (rcc.sys_clock_frequency / rcc.apb1_prescaler.toNat))) := by
  obtain ⟨f, p1, p2, t⟩ := rcc
  have ht : t = false := hflag
  subst ht
  have hf : f < 2 ^ 32 := hfreq
  constructor
  · rintro (h | h)
    · have hp : p1 = APBPrescaler.DivideBy1 := h
      subst hp
      exact congrArg some (Nat.mod_eq_of_lt hf)
    · have hp : p1 = APBPrescaler.DivideBy2 := h
      subst hp
      exact congrArg some (Nat.mod_eq_of_lt hf)
  · intro hlt
    cases p1
    · have h' : 2 < 1 := hlt
      exact absurd h' (by decide)
    · have h' : 2 < 2 := hlt
      exact absurd h' (by decide)
    · exact congrArg some (div_mul_mod_pow_eq f 4 2 hf (by norm_num))
    · exact congrArg some (div_mul_mod_pow_eq f 8 2 hf (by norm_num))
    · exact congrArg some (div_mul_mod_pow_eq f 16 2 hf (by norm_num))

/-- Witness for C1 at a concrete backend state: 16 MHz system clock,
APB1 prescaler 4, TIMPRE clear. -/
theorem tim2_frequency_timpre_clear_witness :
    get_frequency
        { sys_clock_frequency := 16000000, apb1_prescaler := APBPrescaler.DivideBy4,
          apb2_prescaler := APBPrescaler.DivideBy1, tim_pre := false }
        (PeripheralClockType.APB1 PCLK1.TIM2)
      = some (2 * (16000000 / 4)) :=
  (tim2_frequency_timpre_clear
      { sys_clock_frequency := 16000000, apb1_prescaler := APBPrescaler.DivideBy4,
        apb2_prescaler := APBPrescaler.DivideBy1, tim_pre := false }
      rfl (by norm_num)).2 (by decide)

/-- C2: for TIM2 on APB1 with the TIMPRE flag set, `get_frequency`
returns the undivided system clock frequency for prescalers 1, 2 and 4,
and four times the divided frequency for any larger prescaler. -/
theorem tim2_frequency_timpre_set (rcc : Rcc)
    (hflag : rcc.tim_pre = true)
    (hfreq : rcc.sys_clock_frequency < 2 ^ 32) :
    (rcc.apb1_prescaler = APBPrescaler.DivideBy1 ∨
        rcc.apb1_prescaler = APBPrescaler.DivideBy2 ∨
        rcc.apb1_prescaler = APBPrescaler.DivideBy4 →
      get_frequency rcc (PeripheralClockType.APB1 PCLK1.TIM2)
        = some rcc.sys_clock_frequency) ∧
    (4 < rcc.apb1_prescaler.toNat →
      get_frequency rcc (PeripheralClockType.APB1 PCLK1.TIM2)
        = some (4 * (rcc.sys_clock_frequency / rcc.apb1_prescaler.toNat))) := by
  obtain ⟨f, p1, p2, t⟩ := rcc
  have ht : t = true := hflag
  subst ht
  have hf : f < 2 ^ 32 := hfreq
  constructor
  · rintro (h | h | h)
    · have hp : p1 = APBPrescaler.DivideBy1 := h
      subst hp
      exact congrArg some (Nat.mod_eq_of_lt hf)
    · have hp : p1 = APBPrescaler.DivideBy2 := h
      subst hp
      exact congrArg some (Nat.mod_eq_of_lt hf)
    · have hp : p1 = APBPrescaler.DivideBy4 := h
      subst hp
      exact congrArg some (Nat.mod_eq_of_lt hf)
  · intro hlt
    cases p1
    · have h' : 4 < 1 := hlt
      exact absurd h' (by decide)
    · have h' : 4 < 2 := hlt
      exact absurd h' (by decide)
    · have h' : 4 < 4 := hlt
      exact absurd h' (by decide)
    · exact congrArg some (div_mul_mod_pow_eq f 8 4 hf (by norm_num))
    · exact congrArg some (div_mul_mod_pow_eq f 16 4 hf (by norm_num))

/-- Witness for C2 at a concrete backend state: 16 MHz system clock,
APB1 prescaler 8, TIMPRE set. -/
theorem tim2_frequency_timpre_set_witness :
    get_frequency
        { sys_clock_frequency := 16000000, apb1_prescaler := APBPrescaler.DivideBy8,
          apb2_prescaler := APBPrescaler.DivideBy1, tim_pre := true }
        (PeripheralClockType.APB1 PCLK1.TIM2)
      = some (4 * (16000000 / 8)) :=
  (tim2_frequency_timpre_set
      { sys_clock_frequency := 16000000, apb1_prescaler := APBPrescaler.DivideBy8,
        apb2_prescaler := APBPrescaler.DivideBy1, tim_pre := true }
      rfl (by norm_num)).2 (by decide)

/-- C6: AHB identities get the system clock frequency unchanged, for every
backend state (hence independently of both APB prescalers); non-timer APB1
identities get the system frequency divided by the APB1 prescaler, and APB2
identities get it divided by the APB2 prescaler, whatever the prescaler. -/
theorem ahb_and_nontimer_apb_frequency (rcc : Rcc)
    (hfreq : rcc.sys_clock_frequency < 2 ^ 32) :
    (∀ c : PeripheralClockType, c.isAHB = true →
      get_frequency rcc c = some rcc.sys_clock_frequency) ∧
    (∀ v : PCLK1, v ≠ PCLK1.TIM2 →
      get_frequency rcc (PeripheralClockType.APB1 v)
        = some (rcc.sys_clock_frequency / rcc.apb1_prescaler.toNat)) ∧
    (∀ v : PCLK2,
      get_frequency rcc (PeripheralClockType.APB2 v)
        = some (rcc.sys_clock_frequency / rcc.apb2_prescaler.toNat)) := by
  obtain ⟨f, p1, p2, t⟩ := rcc
  have hf : f < 2 ^ 32 := hfreq
  have hdiv1 : f / p1.toNat % 2 ^ 32 = f / p1.toNat :=
    Nat.mod_eq_of_lt (Nat.lt_of_le_of_lt (Nat.div_le_self f _) hf)
  have hdiv2 : f / p2.toNat % 2 ^ 32 = f / p2.toNat :=
    Nat.mod_eq_of_lt (Nat.lt_of_le_of_lt (Nat.div_le_self f _) hf)
  refine ⟨?_, ?_, ?_⟩
  · intro c hc
    cases c
    · exact congrArg some (Nat.mod_eq_of_lt hf)
    · exact congrArg some (Nat.mod_eq_of_lt hf)
    · exact congrArg some (Nat.mod_eq_of_lt hf)
    · have h' : false = true := hc
      exact Bool.noConfusion h'
    · have h' : false = true := hc
      exact Bool.noConfusion h'
    · have h' : false = true := hc
      exact Bool.noConfusion h'
    · have h' : false = true := hc
      exact Bool.noConfusion h'
  · intro v hv
    cases v
    · exact absurd rfl hv
    · exact congrArg some hdiv1
    · exact congrArg some hdiv1
    · exact congrArg some hdiv1
    · exact congrArg some hdiv1
    · exact congrArg some hdiv1
    · exact congrArg some hdiv1
  · intro v
    cases v
    · exact congrArg some hdiv2
    · exact congrArg some hdiv2
    · exact congrArg some hdiv2

/-- Witness for C6 at a concrete backend state: 16 MHz system clock,
APB1 prescaler 8, APB2 prescaler 16; checks the RNG AHB2 identity and the
USART2 (APB1) and ADC1 (APB2) identities. -/
theorem ahb_and_nontimer_apb_frequency_witness :
    get_frequency
        { sys_clock_frequency := 16000000, apb1_prescaler := APBPrescaler.DivideBy8,
          apb2_prescaler := APBPrescaler.DivideBy16, tim_pre := false }
        (PeripheralClockType.AHB2 HCLK2.RNG) = some 16000000 ∧
    get_frequency
        { sys_clock_frequency := 16000000, apb1_prescaler := APBPrescaler.DivideBy8,
          apb2_prescaler := APBPrescaler.DivideBy16, tim_pre := false }
        (PeripheralClockType.APB1 PCLK1.USART2) = some (16000000 / 8) ∧
    get_frequency
        { sys_clock_frequency := 16000000, apb1_prescaler := APBPrescaler.DivideBy8,
          apb2_prescaler := APBPrescaler.DivideBy16, tim_pre := false }
        (PeripheralClockType.APB2 PCLK2.ADC1) = some (16000000 / 16) := by
  refine ⟨?_, ?_, ?_⟩
  · exact (ahb_and_nontimer_apb_frequency
        { sys_clock_frequency := 16000000, apb1_prescaler := APBPrescaler.DivideBy8,
          apb2_prescaler := APBPrescaler.DivideBy16, tim_pre := false }
        (by norm_num)).1 (PeripheralClockType.AHB2 HCLK2.RNG) rfl
  · exact (ahb_and_nontimer_apb_frequency
        { sys_clock_frequency := 16000000, apb1_prescaler := APBPrescaler.DivideBy8,
          apb2_prescaler := APBPrescaler.DivideBy16, tim_pre := false }
        (by norm_num)).2.1 PCLK1.USART2 (by decide)
  · exact (ahb_and_nontimer_apb_frequency
        { sys_clock_frequency := 16000000, apb1_prescaler := APBPrescaler.DivideBy8,
          apb2_prescaler := APBPrescaler.DivideBy16, tim_pre := false }
        (by norm_num)).2.2 PCLK2.ADC1

/-- C7: for the RTC and PWR identities `get_frequency` reaches `todo!()`
for every backend state: the call panics and produces no value (`none`). -/
theorem rtc_pwr_frequency_unimplemented (rcc : Rcc) :
    get_frequency rcc PeripheralClockType.RTC = none ∧
    get_frequency rcc PeripheralClockType.PWR = none :=
  ⟨rfl, rfl⟩

/-- Witness for C7 at a concrete backend state. -/
theorem rtc_pwr_frequency_unimplemented_witness :
    get_frequency
        { sys_clock_frequency := 16000000, apb1_prescaler := APBPrescaler.DivideBy1,
          apb2_prescaler := APBPrescaler.DivideBy1, tim_pre := false }
        PeripheralClockType.RTC = none ∧
    get_frequency
        { sys_clock_frequency := 16000000, apb1_prescaler := APBPrescaler.DivideBy1,
          apb2_prescaler := APBPrescaler.DivideBy1, tim_pre := false }
        PeripheralClockType.PWR = none :=
  rtc_pwr_frequency_unimplemented
    { sys_clock_frequency := 16000000, apb1_prescaler := APBPrescaler.DivideBy1,
      apb2_prescaler := APBPrescaler.DivideBy1, tim_pre := false }

/-- Modelled from the spec: the kernel entropy HIL completion signal
(`kernel::hil::entropy::Continue`, outside the provided sources)
distinguishing a client that wants more words from one that is done. -/
inductive Continue
  | More
  | Done
deriving DecidableEq

/-- Modelled from the spec: the kernel error-code type
(`kernel::ErrorCode`, outside the provided sources); `get` and
`cancel` only ever produce the success result, modelled as
`Except.ok ()`. -/
inductive ErrorCode
  | FAIL
deriving DecidableEq

/-- The TRNG register block (`RngRegisters`), one Boolean per register
bit used by the driver plus the read-only 32-bit data register. -/
structure TrngRegisters where
  cr_CED : Bool
  cr_IE : Bool
  cr_RNGEN : Bool
  sr_SEIS : Bool
  sr_CEIS : Bool
  sr_SECS : Bool
  sr_CECS : Bool
  sr_DRDY : Bool
  data : Nat
deriving DecidableEq

/-- `TrngIter::next`: if DRDY is set, read the data register (the read
also clears the DRDY bit) and yield the value; otherwise yield nothing
and leave the registers untouched. -/
def TrngIter.next (s : TrngRegisters) : Option Nat × TrngRegisters :=
  if s.sr_DRDY then
    (some s.data, { s with sr_DRDY := false })
  else
    (none, s)

/-- Deterministic model of an external `hil::entropy::Client32`: on
`entropy_available` the client pulls the iterator `pulls` times and then
returns the completion signal `decision` computed from what it pulled.
Every terminating client interaction with the one-shot iterator is an
instance of this shape. -/
structure ClientModel where
  pulls : Nat
  decision : List (Option Nat) → Continue

/-- Runs `n` iterator pulls against the registers, returning the pulled
results in order together with the final register state. -/
def runPulls : Nat → TrngRegisters → List (Option Nat) × TrngRegisters
  | 0, s => ([], s)
  | n + 1, s =>
    let r := (TrngIter.next s).1
    let s' := (TrngIter.next s).2
    ((r :: (runPulls n s').1), (runPulls n s').2)

/-- Control-register bit writes performed through `cr.modify`, recorded
in program order. -/
inductive CrWrite
  | IEset
  | IEclear
  | RNGENset
  | RNGENclear
deriving DecidableEq

/-- Observable effects of one `handle_interrupt` invocation: how many
times the clock handle's `configure` hook ran, whether the registered
client was invoked and what it returned, how many data-register reads
happened, and the control-register writes in order. -/
structure Effects where
  configure_calls : Nat
  client_invoked : Bool
  client_result : Option Continue
  data_reads : Nat
  cr_writes : List CrWrite
deriving DecidableEq

/-- `Trng::handle_interrupt`. Branch one: SEIS set, so clear SEIS, read
and drop the data register (clearing DRDY), then clear and set RNGEN.
Branch two: CEIS set, so call the clock handle's `configure` and clear
CEIS. Otherwise map over the optional client: the client consumes the
one-shot iterator and, if its result is `Done`, the IE and RNGEN bits
are cleared. Returns the final registers and the effect record. -/
def handle_interrupt (client : Option ClientModel) (s : TrngRegisters) :
    TrngRegisters × Effects :=
  if s.sr_SEIS then
    ({ s with sr_SEIS := false, sr_DRDY := false, cr_RNGEN := true },
      { configure_calls := 0, client_invoked := false, client_result := none,
        data_reads := 1, cr_writes := [CrWrite.RNGENclear, CrWrite.RNGENset] })
  else if s.sr_CEIS then
    ({ s with sr_CEIS := false },
      { configure_calls := 1, client_invoked := false, client_result := none,
        data_reads := 0, cr_writes := [] })
  else
    match client with
    | none =>
      (s, { configure_calls := 0, client_invoked := false, client_result := none,
            data_reads := 0, cr_writes := [] })
    | some c =>
      let rs := (runPulls c.pulls s).1
      let s' := (runPulls c.pulls s).2
      let reads := (rs.filter Option.isSome).length
      match c.decision rs with
      | Continue.Done =>
        ({ s' with cr_IE := false, cr_RNGEN := false },
          { configure_calls := 0, client_invoked := true,
            client_result := some Continue.Done,
            data_reads := reads, cr_writes := [CrWrite.IEclear, CrWrite.RNGENclear] })
      | Continue.More =>
        (s', { configure_calls := 0, client_invoked := true,
               client_result := some Continue.More,
               data_reads := reads, cr_writes := [] })

/-- `Entropy32::get` for `Trng`: set IE, set RNGEN, return `Ok(())`. -/
def Trng.get (s : TrngRegisters) : Except ErrorCode Unit × TrngRegisters :=
  let s1 := { s with cr_IE := true }
  let s2 := { s1 with cr_RNGEN := true }
  (Except.ok (), s2)

/-- `Entropy32::cancel` for `Trng`: clear RNGEN, then clear IE, return
`Ok(())`. -/
def Trng.cancel (s : TrngRegisters) : Except ErrorCode Unit × TrngRegisters :=
  let s1 := { s with cr_RNGEN := false }
  let s2 := { s1 with cr_IE := false }
  (Except.ok (), s2)

/-- C3: whenever SEIS is set — whatever the CEIS and DRDY flags and
whether or not a client is registered — `handle_interrupt` clears SEIS,
performs one discarded data-register read (clearing DRDY), writes RNGEN
clear then set, and returns without calling `configure` and without
invoking the client. -/
theorem handle_interrupt_seed_error (client : Option ClientModel)
    (s : TrngRegisters) (h : s.sr_SEIS = true) :
    handle_interrupt client s =
      ({ s with sr_SEIS := false, sr_DRDY := false, cr_RNGEN := true },
        { configure_calls := 0, client_invoked := false, client_result := none,
          data_reads := 1, cr_writes := [CrWrite.RNGENclear, CrWrite.RNGENset] }) := by
  simp [handle_interrupt, h]

/-- Witness for C3: a registered always-done client, SEIS, CEIS and DRDY
all set. -/
theorem handle_interrupt_seed_error_witness :
    handle_interrupt (some { pulls := 1, decision := fun _ => Continue.Done })
        { cr_CED := false, cr_IE := true, cr_RNGEN := true, sr_SEIS := true,
          sr_CEIS := true, sr_SECS := false, sr_CECS := false, sr_DRDY := true,
          data := 99 } =
      ({ cr_CED := false, cr_IE := true, cr_RNGEN := true, sr_SEIS := false,
          sr_CEIS := true, sr_SECS := false, sr_CECS := false, sr_DRDY := false,
          data := 99 },
        { configure_calls := 0, client_invoked := false, client_result := none,
          data_reads := 1, cr_writes := [CrWrite.RNGENclear, CrWrite.RNGENset] }) :=
  handle_interrupt_seed_error (some { pulls := 1, decision := fun _ => Continue.Done })
    { cr_CED := false, cr_IE := true, cr_RNGEN := true, sr_SEIS := true,
      sr_CEIS := true, sr_SECS := false, sr_CECS := false, sr_DRDY := true,
      data := 99 } rfl

/-- C5: with SEIS clear and CEIS set, `handle_interrupt` calls the clock
handle's `configure` hook exactly once, clears CEIS, and leaves every
other register bit and the data register unchanged, with no data-register
read, no control-register write and no client invocation. -/
theorem handle_interrupt_clock_error (client : Option ClientModel)
    (s : TrngRegisters) (h1 : s.sr_SEIS = false) (h2 : s.sr_CEIS = true) :
    handle_interrupt client s =
      ({ s with sr_CEIS := false },
        { configure_calls := 1, client_invoked := false, client_result := none,
          data_reads := 0, cr_writes := [] }) := by
  simp [handle_interrupt, h1, h2]

/-- Witness for C5: a registered client, CEIS and DRDY set, SEIS clear. -/
theorem handle_interrupt_clock_error_witness :
    handle_interrupt (some { pulls := 1, decision := fun _ => Continue.Done })
        { cr_CED := false, cr_IE := true, cr_RNGEN := true, sr_SEIS := false,
          sr_CEIS := true, sr_SECS := false, sr_CECS := false, sr_DRDY := true,
          data := 55 } =
      ({ cr_CED := false, cr_IE := true, cr_RNGEN := true, sr_SEIS := false,
          sr_CEIS := false, sr_SECS := false, sr_CECS := false, sr_DRDY := true,
          data := 55 },
        { configure_calls := 1, client_invoked := false, client_result := none,
          data_reads := 0, cr_writes := [] }) :=
  handle_interrupt_clock_error (some { pulls := 1, decision := fun _ => Continue.Done })
    { cr_CED := false, cr_IE := true, cr_RNGEN := true, sr_SEIS := false,
      sr_CEIS := true, sr_SECS := false, sr_CECS := false, sr_DRDY := true,
      data := 55 } rfl rfl

/-- C4: with neither error flag set and a registered client whose
completion signal in this invocation is `Done`, both the IE bit and the
RNGEN bit are clear when `handle_interrupt` returns. -/
theorem handle_interrupt_done_disables (c : ClientModel) (s : TrngRegisters)
    (h1 : s.sr_SEIS = false) (h2 : s.sr_CEIS = false)
    (h3 : (handle_interrupt (some c) s).2.client_result = some Continue.Done) :
    (handle_interrupt (some c) s).1.cr_IE = false ∧
    (handle_interrupt (some c) s).1.cr_RNGEN = false := by
  cases hres : c.decision (runPulls c.pulls s).1 <;>
    simp [handle_interrupt, h1, h2, hres] at h3 ⊢

/-- Witness for C4: DRDY set, a client that pulls once and returns
`Done`. -/
theorem handle_interrupt_done_disables_witness :
    (handle_interrupt (some { pulls := 1, decision := fun _ => Continue.Done })
        { cr_CED := false, cr_IE := true, cr_RNGEN := true, sr_SEIS := false,
          sr_CEIS := false, sr_SECS := false, sr_CECS := false, sr_DRDY := true,
          data := 7 }).1.cr_IE = false ∧
    (handle_interrupt (some { pulls := 1, decision := fun _ => Continue.Done })
        { cr_CED := false, cr_IE := true, cr_RNGEN := true, sr_SEIS := false,
          sr_CEIS := false, sr_SECS := false, sr_CECS := false, sr_DRDY := true,
          data := 7 }).1.cr_RNGEN = false :=
  handle_interrupt_done_disables { pulls := 1, decision := fun _ => Continue.Done }
    { cr_CED := false, cr_IE := true, cr_RNGEN := true, sr_SEIS := false,
      sr_CEIS := false, sr_SECS := false, sr_CECS := false, sr_DRDY := true,
      data := 7 } rfl rfl rfl

/-- C10: with neither error flag set and no registered client,
`handle_interrupt` returns with every register exactly as it found it:
no data-register read, no control-register write, no `configure` call. -/
theorem handle_interrupt_no_client_frame (s : TrngRegisters)
    (h1 : s.sr_SEIS = false) (h2 : s.sr_CEIS = false) :
    handle_interrupt none s =
      (s, { configure_calls := 0, client_invoked := false, client_result := none,
            data_reads := 0, cr_writes := [] }) := by
  simp [handle_interrupt, h1, h2]

/-- Witness for C10: no client, both error flags clear, DRDY set, the
generator armed. -/
theorem handle_interrupt_no_client_frame_witness :
    handle_interrupt none
        { cr_CED := false, cr_IE := true, cr_RNGEN := true, sr_SEIS := false,
          sr_CEIS := false, sr_SECS := false, sr_CECS := false, sr_DRDY := true,
          data := 13 } =
      ({ cr_CED := false, cr_IE := true, cr_RNGEN := true, sr_SEIS := false,
          sr_CEIS := false, sr_SECS := false, sr_CECS := false, sr_DRDY := true,
          data := 13 },
        { configure_calls := 0, client_invoked := false, client_result := none,
          data_reads := 0, cr_writes := [] }) :=
  handle_interrupt_no_client_frame
    { cr_CED := false, cr_IE := true, cr_RNGEN := true, sr_SEIS := false,
      sr_CEIS := false, sr_SECS := false, sr_CECS := false, sr_DRDY := true,
      data := 13 } rfl rfl

/-- C8: from every register state, `get` returns the success result and
sets the IE and RNGEN bits, and `cancel` returns the success result and
clears the RNGEN then IE bits; neither returns an error. -/
theorem get_cancel_always_ok (s : TrngRegisters) :
    Trng.get s = (Except.ok (), { s with cr_IE := true, cr_RNGEN := true }) ∧
    Trng.cancel s = (Except.ok (), { s with cr_RNGEN := false, cr_IE := false }) :=
  ⟨rfl, rfl⟩

/-- Witness for C8 at a concrete register state with everything clear. -/
theorem get_cancel_always_ok_witness :
    Trng.get
        { cr_CED := false, cr_IE := false, cr_RNGEN := false, sr_SEIS := false,
          sr_CEIS := false, sr_SECS := false, sr_CECS := false, sr_DRDY := false,
          data := 0 } =
      (Except.ok (),
        { cr_CED := false, cr_IE := true, cr_RNGEN := true, sr_SEIS := false,
          sr_CEIS := false, sr_SECS := false, sr_CECS := false, sr_DRDY := false,
          data := 0 }) ∧
    Trng.cancel
        { cr_CED := false, cr_IE := false, cr_RNGEN := false, sr_SEIS := false,
          sr_CEIS := false, sr_SECS := false, sr_CECS := false, sr_DRDY := false,
          data := 0 } =
      (Except.ok (),
        { cr_CED := false, cr_IE := false, cr_RNGEN := false, sr_SEIS := false,
          sr_CEIS := false, sr_SECS := false, sr_CECS := false, sr_DRDY := false,
          data := 0 }) :=
  get_cancel_always_ok
    { cr_CED := false, cr_IE := false, cr_RNGEN := false, sr_SEIS := false,
      sr_CEIS := false, sr_SECS := false, sr_CECS := false, sr_DRDY := false,
      data := 0 }

/-- C9: a pull on the driver's word sequence yields a word exactly when
DRDY is set at that pull; when it yields, the data-register read clears
DRDY and returns the register's value, and when DRDY is clear the pull
yields nothing and changes nothing. -/
theorem trng_iter_next_drdy (s : TrngRegisters) :
    ((TrngIter.next s).1.isSome = true ↔ s.sr_DRDY = true) ∧
    (s.sr_DRDY = true →
      TrngIter.next s = (some s.data, { s with sr_DRDY := false })) ∧
    (s.sr_DRDY = false → TrngIter.next s = (none, s)) := by
  refine ⟨?_, ?_, ?_⟩ <;> cases hd : s.sr_DRDY <;> simp [TrngIter.next, hd]

/-- Witness for C9: a pull with DRDY set yields the data word 42 and
clears DRDY. -/
theorem trng_iter_next_drdy_witness :
    TrngIter.next
        { cr_CED := false, cr_IE := true, cr_RNGEN := true, sr_SEIS := false,
          sr_CEIS := false, sr_SECS := false, sr_CECS := false, sr_DRDY := true,
          data := 42 } =
      (some 42,
        { cr_CED := false, cr_IE := true, cr_RNGEN := true, sr_SEIS := false,
          sr_CEIS := false, sr_SECS := false, sr_CECS := false, sr_DRDY := false,
          data := 42 }) :=
  (trng_iter_next_drdy
    { cr_CED := false, cr_IE := true, cr_RNGEN := true, sr_SEIS := false,
      sr_CEIS := false, sr_SECS := false, sr_CECS := false, sr_DRDY := true,
      data := 42 }).2.1 rfl

end Stm32
